import Mathlib

/-!
Verification of the dns-roadblock-tests probe harness (src/main.rs).

The Rust program issues DNS conformance probes against a resolver and
classifies each reply into a verdict.  We embed the data the probes
inspect (the inbound DNS message with its answer section and optional
EDNS pseudo-record), the outbound message construction, the four probe
functions, and the two branches of `main`, each as a pure function of
the transport-exchange outcomes supplied by the environment.
-/

namespace DnsRoadblock

/-- DNS record classes; the program only ever uses `IN` (src/main.rs line 63,
and the trust_dns default of `Query::query`). -/
inductive DNSClass
  | IN
  | CH
  | HS
deriving DecidableEq, Repr

/-- DNS record types; the program only ever queries for `A` records. -/
inductive RecordType
  | A
  | AAAA
  | OPT
  | TXT
deriving DecidableEq, Repr

/-- The fixed test domain, `lazy_static` `TESTING_SERVER` (src/main.rs lines 27-30):
`Name::from_str("dnssec-tools.org.")`. -/
def TESTING_SERVER : String := "dnssec-tools.org."

/-- A DNS question: name, query class and query type (trust_dns `Query`). -/
structure Query where
  name : String
  queryClass : DNSClass
  queryType : RecordType
deriving DecidableEq, Repr

/-- `Query::query(name, query_type)` from trust_dns: the query class defaults
to `IN`. -/
def Query.query (name : String) (qt : RecordType) : Query :=
  ⟨name, DNSClass.IN, qt⟩

/-- One EDNS option pair: a numeric option code and an opaque byte payload.
`EdnsCode::Zero` is the code with numeric value 0. -/
structure EdnsOption where
  code : Nat
  data : List Nat
deriving DecidableEq, Repr

/-- The EDNS pseudo-record: a version number (`u8`, modelled as `Nat`) and the
list of attached options. -/
structure Edns where
  version : Nat
  options : List EdnsOption
deriving DecidableEq, Repr

/-- `Edns::new()` from trust_dns: version 0 and no options. -/
def Edns.new : Edns := ⟨0, []⟩

/-- `Edns::set_option` from trust_dns: adds one (code, data) option.  The
program calls it exactly once on a fresh `Edns`, so appending suffices. -/
def Edns.set_option (e : Edns) (o : EdnsOption) : Edns :=
  ⟨e.version, e.options ++ [o]⟩

/-- An answer-section resource record.  The probes never look inside any
answer record, so only the record type is kept. -/
structure Record where
  rtype : RecordType
deriving DecidableEq, Repr

/-- A DNS message as the probes see it: the question section, the answer
section, and the optional EDNS pseudo-record (trust_dns `Message`). -/
structure Message where
  queries : List Query
  answers : List Record
  edns : Option Edns
deriving DecidableEq, Repr

/-- `Message::new()`: empty message. -/
def Message.new : Message := ⟨[], [], none⟩

/-- `Message::add_query`. -/
def Message.add_query (m : Message) (q : Query) : Message :=
  { m with queries := m.queries ++ [q] }

/-- `Message::set_edns`. -/
def Message.set_edns (m : Message) (e : Edns) : Message :=
  { m with edns := some e }

/-- An opaque transport-level error (trust_dns `ClientError` / `io::Error`);
the probes never inspect it beyond discarding it, so only a detail string is
kept (the text a `Debug`/`Display` rendering would show). -/
structure ClientError where
  detail : String
deriving DecidableEq, Repr

/-- The `(name, class, type)` arguments `support_simple_answers` passes to
`client.query` (src/main.rs line 63): the fixed test domain, class `IN`,
record type `A`. -/
def simple_answers_query : Query :=
  ⟨TESTING_SERVER, DNSClass.IN, RecordType.A⟩

/-- `support_simple_answers` (src/main.rs lines 59-66), as a function of the
result of the `SyncClient::query` exchange: any received reply maps to
`Ok(())` (the answer section is never inspected) and any transport error maps
to `Err("query failed")`. -/
def support_simple_answers (queryResult : Except ClientError Message) :
    Except String Unit :=
  match queryResult with
  | Except.ok _ => Except.ok ()
  | Except.error _ => Except.error "query failed"

/-- The outbound message built by both EDNS0 probes (src/main.rs lines 90-96
and 127-133): a fresh `Message` with the A-record query for the test domain
and an `Edns` built by `Edns::new()` plus one option
`EdnsOption::from((EdnsCode::Zero, &[]))` (code 0, empty payload). -/
def build_edns0_message : Message :=
  let query := Query.query TESTING_SERVER RecordType.A
  let edns := Edns.set_option Edns.new ⟨0, []⟩
  Message.set_edns (Message.add_query Message.new query) edns

/-- The phases at which the transport work of `support_edns0`
(src/main.rs lines 98-103) can go wrong, or succeed with a reply:
`Core::new()?` may fail (the error is propagated by `?`),
`conn.new_stream(handle).unwrap()` may fail (the `unwrap` panics),
and `reactor.run(response_future)` either yields a reply or an error. -/
inductive Edns0Transport
  | coreNewFailed (e : ClientError)
  | newStreamFailed (e : ClientError)
  | sendFailed (e : ClientError)
  | replied (msg : Message)
deriving DecidableEq, Repr

/-- `support_edns0` (src/main.rs lines 85-116) as a function of its transport
outcome.  `none` models a panic: `conn.new_stream(handle).unwrap()` aborts the
process when stream setup fails.  Otherwise the result is the Rust
`Result<(), Error>`: `Core::new()?` propagates the setup error itself, a
failed exchange yields `Err("error in reactor")`, and a reply is classified
by its EDNS pseudo-record. -/
def support_edns0 (t : Edns0Transport) : Option (Except String Unit) :=
  match t with
  | Edns0Transport.coreNewFailed e => some (Except.error e.detail)
  | Edns0Transport.newStreamFailed _ => none
  | Edns0Transport.sendFailed _ => some (Except.error "error in reactor")
  | Edns0Transport.replied msg =>
    match msg.edns with
    | some edns =>
      if edns.version = 0 then some (Except.ok ())
      else some (Except.error "Wrong EDNS option")
    | none => some (Except.error "No EDNS option")

/-- The `Edns0TestResult` enum (src/main.rs lines 118-122). -/
inductive Edns0TestResult
  | Success
  | Fail (reason : String)
deriving DecidableEq, Repr

/-- `support_edns0_future` (src/main.rs lines 124-149) as a function of the
`dns_handle.send(msg)` outcome: a reply is classified by its EDNS
pseudo-record into an `Edns0TestResult`; a transport error makes the future
itself fail with `"Internal error in EDNS0 Future"`. -/
def support_edns0_future (sendResult : Except ClientError Message) :
    Except String Edns0TestResult :=
  match sendResult with
  | Except.ok msg =>
    Except.ok (match msg.edns with
      | some edns =>
        if edns.version = 0 then Edns0TestResult.Success
        else Edns0TestResult.Fail "Wrong EDNS option"
      | none => Edns0TestResult.Fail "No EDNS option")
  | Except.error _ => Except.error "Internal error in EDNS0 Future"

/-- `support_simple_answers_future` (src/main.rs lines 154-160) as a function
of the `dns_handle.lookup(...)` outcome: any reply maps to `Ok(())` (answers
are never inspected); a transport error is propagated unchanged. -/
def support_simple_answers_future (lookupResult : Except ClientError Message) :
    Except ClientError Unit :=
  match lookupResult with
  | Except.ok _ => Except.ok ()
  | Except.error e => Except.error e

/-- A transport protocol. -/
inductive Transport
  | UDP
  | TCP
deriving DecidableEq, Repr

deriving instance DecidableEq for Except

/-- A probe result as it appears on a printed line, tagged by which probe
produced it (the four probes have different Rust result types). -/
inductive Reported
  | simple (v : Except String Unit)
  | edns0sync (v : Except String Unit)
  | simpleFuture (v : Except ClientError Unit)
  | edns0future (v : Except String Edns0TestResult)
deriving DecidableEq, Repr

/-- One line printed by `main`: the label before the colon, the transport the
reported probe was actually executed over, and the probe's result. -/
structure ReportLine where
  label : String
  transport : Transport
  result : Reported
deriving DecidableEq, Repr

/-- What a completed run of `main` produces: the resolver address it targeted,
the printed report lines in order, and the process exit code. -/
structure RunOutput where
  address : String
  lines : List ReportLine
  exitCode : Nat
deriving DecidableEq, Repr

/-- The transport exchanges the environment may supply to one run of `main`:
one slot per probe invocation that `main` can make. -/
structure Exchanges where
  udpQuery : Except ClientError Message
  tcpQuery : Except ClientError Message
  ednsTransport : Edns0Transport
  udpBasic : Except ClientError Message
  udpEdns : Except ClientError Message
deriving DecidableEq, Repr

/-- The hardcoded resolver address (src/main.rs line 163), parsed once before
the mode branch and used by both branches. -/
def resolver_address : String := "127.0.0.1:53"

/-- The with-argument branch of `main` (src/main.rs lines 166-177):
`support_simple_answers` over a UDP `SyncClient`, then over a TCP
`SyncClient`, then `support_edns0` over the (cloned) UDP connection; one
`println!` per probe.  `none` models the process aborting when
`support_edns0` panics; otherwise `main` returns normally, so the process
exit code is 0. -/
def main_with_arg (udpQuery tcpQuery : Except ClientError Message)
    (ednsTransport : Edns0Transport) : Option RunOutput :=
  match support_edns0 ednsTransport with
  | some v =>
    some ⟨resolver_address,
      [⟨"Support UDP answers", Transport.UDP,
        Reported.simple (support_simple_answers udpQuery)⟩,
       ⟨"Support TCP answers", Transport.TCP,
        Reported.simple (support_simple_answers tcpQuery)⟩,
       ⟨"Support EDNS0", Transport.UDP, Reported.edns0sync v⟩],
      0⟩
  | none => none

/-- The no-argument branch of `main` (src/main.rs lines 178-203):
`support_simple_answers_future` over the UDP client handle is printed under
the label "Basic UDP"; the TCP probe is commented out (lines 198-199); then
`support_edns0_future` over the same UDP client handle is printed under the
label "Basic TCP" (line 202). -/
def main_no_arg (udpBasic udpEdns : Except ClientError Message) : RunOutput :=
  ⟨resolver_address,
    [⟨"Basic UDP", Transport.UDP,
      Reported.simpleFuture (support_simple_answers_future udpBasic)⟩,
     ⟨"Basic TCP", Transport.UDP,
      Reported.edns0future (support_edns0_future udpEdns)⟩],
    0⟩

/-- `main` (src/main.rs lines 162-204) as a function of the argv list (index 0
is the program name) and the available transport exchanges.  The mode is
selected by `env::args().nth(1)`: the mere presence of a second argv element
picks the with-argument branch; its value is dropped (`Some(_)`). -/
def main (args : List String) (ex : Exchanges) : Option RunOutput :=
  match args.get? 1 with
  | some _ => main_with_arg ex.udpQuery ex.tcpQuery ex.ednsTransport
  | none => some (main_no_arg ex.udpBasic ex.udpEdns)

/-- A received reply whose answer section is empty (no EDNS record either). -/
def replyNoEdns : Message := ⟨[simple_answers_query], [], none⟩

/-- A received reply carrying one A answer record and an EDNS record of
version 0. -/
def replyEdnsV0 : Message := ⟨[simple_answers_query], [⟨RecordType.A⟩], some ⟨0, []⟩⟩

/-- A received reply carrying one A answer record and an EDNS record of
version 1. -/
def replyEdnsV1 : Message := ⟨[simple_answers_query], [⟨RecordType.A⟩], some ⟨1, []⟩⟩

/-- A sample transport-failure detail. -/
def errTimeout : ClientError := ⟨"connection timed out"⟩

/-- Claim C1: the Basic Answer Probe is claimed to return Success iff the
answer section is non-empty and Fail("no answer") when it is empty.  The code
never inspects the answer section: evaluated at a reply with zero answer
records, both `support_simple_answers` and `support_simple_answers_future`
return success, and neither ever produces the reason "no answer" (the only
failure string of `support_simple_answers` is "query failed"). -/
theorem c1_basic_probe_ignores_answer_section :
    replyNoEdns.answers = [] ∧
    support_simple_answers (Except.ok replyNoEdns) = Except.ok () ∧
    support_simple_answers_future (Except.ok replyNoEdns) = Except.ok () ∧
    support_simple_answers (Except.error errTimeout) = Except.error "query failed" :=
  ⟨rfl, rfl, rfl, rfl⟩

/-- Claim C2: for every received reply, both EDNS0 probes classify it by the
EDNS pseudo-record alone: success exactly when an EDNS record with version 0
is present, Fail "Wrong EDNS option" exactly when an EDNS record with a
version other than 0 is present, and Fail "No EDNS option" exactly when no
EDNS record is present. -/
theorem c2_edns0_classification (m : Message) :
    (support_edns0 (Edns0Transport.replied m) = some (Except.ok ()) ↔
      ∃ e, m.edns = some e ∧ e.version = 0) ∧
    (support_edns0 (Edns0Transport.replied m) =
        some (Except.error "Wrong EDNS option") ↔
      ∃ e, m.edns = some e ∧ e.version ≠ 0) ∧
    (support_edns0 (Edns0Transport.replied m) =
        some (Except.error "No EDNS option") ↔ m.edns = none) ∧
    (support_edns0_future (Except.ok m) = Except.ok Edns0TestResult.Success ↔
      ∃ e, m.edns = some e ∧ e.version = 0) ∧
    (support_edns0_future (Except.ok m) =
        Except.ok (Edns0TestResult.Fail "Wrong EDNS option") ↔
      ∃ e, m.edns = some e ∧ e.version ≠ 0) ∧
    (support_edns0_future (Except.ok m) =
        Except.ok (Edns0TestResult.Fail "No EDNS option") ↔ m.edns = none) := by
  cases h : m.edns with
  | none => simp [support_edns0, support_edns0_future, h]
  | some e =>
    by_cases hv : e.version = 0 <;>
      simp [support_edns0, support_edns0_future, h, hv]

/-- Concrete instances of the C2 classification: a reply with EDNS version 0
succeeds, version 1 yields "Wrong EDNS option", and a reply without EDNS
yields "No EDNS option", on both probe variants. -/
theorem c2_edns0_classification_witness :
    support_edns0 (Edns0Transport.replied replyEdnsV0) = some (Except.ok ()) ∧
    support_edns0 (Edns0Transport.replied replyEdnsV1) =
      some (Except.error "Wrong EDNS option") ∧
    support_edns0 (Edns0Transport.replied replyNoEdns) =
      some (Except.error "No EDNS option") ∧
    support_edns0_future (Except.ok replyEdnsV0) =
      Except.ok Edns0TestResult.Success ∧
    support_edns0_future (Except.ok replyEdnsV1) =
      Except.ok (Edns0TestResult.Fail "Wrong EDNS option") ∧
    support_edns0_future (Except.ok replyNoEdns) =
      Except.ok (Edns0TestResult.Fail "No EDNS option") :=
  ⟨(c2_edns0_classification replyEdnsV0).1.mpr ⟨⟨0, []⟩, rfl, rfl⟩,
   (c2_edns0_classification replyEdnsV1).2.1.mpr ⟨⟨1, []⟩, rfl, by decide⟩,
   (c2_edns0_classification replyNoEdns).2.2.1.mpr rfl,
   (c2_edns0_classification replyEdnsV0).2.2.2.1.mpr ⟨⟨0, []⟩, rfl, rfl⟩,
   (c2_edns0_classification replyEdnsV1).2.2.2.2.1.mpr ⟨⟨1, []⟩, rfl, by decide⟩,
   (c2_edns0_classification replyNoEdns).2.2.2.2.2.mpr rfl⟩

/-- Claim C3: a failure of the DNS exchange in the EDNS0 probes yields the
distinct reactor-error reason ("error in reactor" in `support_edns0`,
"Internal error in EDNS0 Future" in `support_edns0_future`), is never
classified as "No EDNS option", and differs from the classification of every
received reply — the transport-failure outcome and the absent-EDNS outcome
are always distinguishable. -/
theorem c3_transport_failure_distinct (e : ClientError) (m : Message) :
    support_edns0 (Edns0Transport.sendFailed e) =
      some (Except.error "error in reactor") ∧
    support_edns0 (Edns0Transport.sendFailed e) ≠
      some (Except.error "No EDNS option") ∧
    support_edns0 (Edns0Transport.sendFailed e) ≠
      support_edns0 (Edns0Transport.replied m) ∧
    support_edns0_future (Except.error e) =
      Except.error "Internal error in EDNS0 Future" ∧
    support_edns0_future (Except.error e) ≠ support_edns0_future (Except.ok m) := by
  refine ⟨rfl, by simp [support_edns0], ?_, rfl, ?_⟩
  · cases h : m.edns with
    | none => simp [support_edns0, h]
    | some o =>
      by_cases hv : o.version = 0 <;> simp [support_edns0, h, hv]
  · cases h : m.edns <;> simp [support_edns0_future, h]

/-- C3 at concrete inputs: a timed-out exchange versus a reply without EDNS. -/
theorem c3_transport_failure_distinct_witness :
    support_edns0 (Edns0Transport.sendFailed errTimeout) =
      some (Except.error "error in reactor") ∧
    support_edns0 (Edns0Transport.sendFailed errTimeout) ≠
      some (Except.error "No EDNS option") ∧
    support_edns0 (Edns0Transport.sendFailed errTimeout) ≠
      support_edns0 (Edns0Transport.replied replyNoEdns) ∧
    support_edns0_future (Except.error errTimeout) =
      Except.error "Internal error in EDNS0 Future" ∧
    support_edns0_future (Except.error errTimeout) ≠
      support_edns0_future (Except.ok replyNoEdns) :=
  c3_transport_failure_distinct errTimeout replyNoEdns

/-- Claim C4 counterexample: not every transport failure is converted to a
Fail verdict.  A transport failure while setting up the stream hits
`conn.new_stream(handle).unwrap()` in `support_edns0`, so the probe panics
(modelled as `none`): the process crashes and no verdict is produced. -/
theorem c4_new_stream_failure_panics :
    support_edns0 (Edns0Transport.newStreamFailed ⟨"could not bind local socket"⟩) =
      none :=
  rfl

/-- Claim C4 amended: for transport failures of the DNS exchange itself, each
probe catches the failure and yields an error outcome — with the non-empty
reasons "query failed", "error in reactor" and "Internal error in EDNS0
Future" respectively, while `support_simple_answers_future` surfaces the
typed transport error as an `Err` value that the runner prints;
only a stream-setup failure inside `support_edns0` escapes as a panic. -/
theorem c4_exchange_failures_caught (e : ClientError) :
    support_simple_answers (Except.error e) = Except.error "query failed" ∧
    "query failed" ≠ "" ∧
    support_edns0 (Edns0Transport.sendFailed e) =
      some (Except.error "error in reactor") ∧
    "error in reactor" ≠ "" ∧
    support_edns0_future (Except.error e) =
      Except.error "Internal error in EDNS0 Future" ∧
    "Internal error in EDNS0 Future" ≠ "" ∧
    support_simple_answers_future (Except.error e) = Except.error e :=
  ⟨rfl, by decide, rfl, by decide, rfl, by decide, rfl⟩

/-- C4 amended at a concrete transport failure. -/
theorem c4_exchange_failures_caught_witness :
    support_simple_answers (Except.error errTimeout) = Except.error "query failed" ∧
    "query failed" ≠ "" ∧
    support_edns0 (Edns0Transport.sendFailed errTimeout) =
      some (Except.error "error in reactor") ∧
    "error in reactor" ≠ "" ∧
    support_edns0_future (Except.error errTimeout) =
      Except.error "Internal error in EDNS0 Future" ∧
    "Internal error in EDNS0 Future" ≠ "" ∧
    support_simple_answers_future (Except.error errTimeout) =
      Except.error errTimeout :=
  c4_exchange_failures_caught errTimeout

/-- Claim C5: in every completed with-argument run, the three probes are
reported sequentially in their configured order, each on exactly one line
pairing its name with its verdict, whatever those verdicts are — in
particular a failing earlier probe does not abort the run or drop any later
result. -/
theorem c5_run_reports_all_probes (u t : Except ClientError Message)
    (et : Edns0Transport) (v : Except String Unit)
    (h : support_edns0 et = some v) :
    main_with_arg u t et =
      some ⟨resolver_address,
        [⟨"Support UDP answers", Transport.UDP,
          Reported.simple (support_simple_answers u)⟩,
         ⟨"Support TCP answers", Transport.TCP,
          Reported.simple (support_simple_answers t)⟩,
         ⟨"Support EDNS0", Transport.UDP, Reported.edns0sync v⟩],
        0⟩ := by
  simp [main_with_arg, h]

/-- C5 at a concrete run in which the first two probes fail on transport
errors: the run still reports all three probes, one line each, in order. -/
theorem c5_run_reports_all_probes_witness :
    main_with_arg (Except.error errTimeout) (Except.error errTimeout)
        (Edns0Transport.replied replyNoEdns) =
      some ⟨resolver_address,
        [⟨"Support UDP answers", Transport.UDP,
          Reported.simple (Except.error "query failed")⟩,
         ⟨"Support TCP answers", Transport.TCP,
          Reported.simple (Except.error "query failed")⟩,
         ⟨"Support EDNS0", Transport.UDP,
          Reported.edns0sync (Except.error "No EDNS option")⟩],
        0⟩ :=
  c5_run_reports_all_probes (Except.error errTimeout) (Except.error errTimeout)
    (Edns0Transport.replied replyNoEdns) (Except.error "No EDNS option") rfl

/-- Claim C6: every outbound message targets the fixed test domain
"dnssec-tools.org." with class IN and type A — both via the explicit
`client.query` arguments and via `Query::query`'s IN default — and the
EDNS0 probes' message carries an EDNS record of version 0 holding exactly
one option with code 0 and an empty payload. -/
theorem c6_outbound_messages :
    TESTING_SERVER = "dnssec-tools.org." ∧
    simple_answers_query =
      ⟨TESTING_SERVER, DNSClass.IN, RecordType.A⟩ ∧
    Query.query TESTING_SERVER RecordType.A = simple_answers_query ∧
    build_edns0_message.queries =
      [⟨TESTING_SERVER, DNSClass.IN, RecordType.A⟩] ∧
    build_edns0_message.edns = some ⟨0, [⟨0, []⟩]⟩ ∧
    build_edns0_message.answers = [] :=
  ⟨rfl, rfl, rfl, rfl, rfl, rfl⟩

/-- Claim C7: each probe's classification is a deterministic function of the
exchange outcome — in the source the classifiers are closures over no mutable
state — so two invocations on identical replies yield identical verdicts. -/
theorem c7_probes_deterministic (r₁ r₂ : Except ClientError Message)
    (t₁ t₂ : Edns0Transport) (hr : r₁ = r₂) (ht : t₁ = t₂) :
    support_simple_answers r₁ = support_simple_answers r₂ ∧
    support_simple_answers_future r₁ = support_simple_answers_future r₂ ∧
    support_edns0 t₁ = support_edns0 t₂ ∧
    support_edns0_future r₁ = support_edns0_future r₂ := by
  subst hr; subst ht; exact ⟨rfl, rfl, rfl, rfl⟩

/-- C7 at a concrete reply, run twice. -/
theorem c7_probes_deterministic_witness :
    support_simple_answers (Except.ok replyEdnsV0) =
      support_simple_answers (Except.ok replyEdnsV0) ∧
    support_simple_answers_future (Except.ok replyEdnsV0) =
      support_simple_answers_future (Except.ok replyEdnsV0) ∧
    support_edns0 (Edns0Transport.replied replyEdnsV0) =
      support_edns0 (Edns0Transport.replied replyEdnsV0) ∧
    support_edns0_future (Except.ok replyEdnsV0) =
      support_edns0_future (Except.ok replyEdnsV0) :=
  c7_probes_deterministic (Except.ok replyEdnsV0) (Except.ok replyEdnsV0)
    (Edns0Transport.replied replyEdnsV0) (Edns0Transport.replied replyEdnsV0)
    rfl rfl

/-- Every completed run of `main` produced either the no-argument report or
the three-line with-argument report; in both shapes the address is the
hardcoded constant and the exit code is 0. -/
theorem main_completed_cases (args : List String) (ex : Exchanges)
    (out : RunOutput) (h : main args ex = some out) :
    out = main_no_arg ex.udpBasic ex.udpEdns ∨
    ∃ v, support_edns0 ex.ednsTransport = some v ∧
      out = ⟨resolver_address,
        [⟨"Support UDP answers", Transport.UDP,
          Reported.simple (support_simple_answers ex.udpQuery)⟩,
         ⟨"Support TCP answers", Transport.TCP,
          Reported.simple (support_simple_answers ex.tcpQuery)⟩,
         ⟨"Support EDNS0", Transport.UDP, Reported.edns0sync v⟩],
        0⟩ := by
  rcases hargs : args.get? 1 with _ | a
  · simp only [main, hargs, Option.some.injEq] at h
    exact Or.inl h.symm
  · simp only [main, hargs] at h
    rcases hv : support_edns0 ex.ednsTransport with _ | v
    · simp only [main_with_arg, hv] at h
      exact Option.noConfusion h
    · simp only [main_with_arg, hv, Option.some.injEq] at h
      exact Or.inr ⟨v, rfl, h.symm⟩

/-- Claim C8: every run of `main` that completes exits with status 0,
whatever the probe verdicts were. -/
theorem c8_exit_code_always_zero (args : List String) (ex : Exchanges)
    (out : RunOutput) (h : main args ex = some out) :
    out.exitCode = 0 := by
  rcases main_completed_cases args ex out h with h2 | ⟨v, _, h2⟩ <;>
    (subst h2; rfl)

/-- C8 at a concrete completed run whose probes all fail: the output that
run produces has exit code 0. -/
theorem c8_exit_code_always_zero_witness :
    (RunOutput.mk resolver_address
      [⟨"Support UDP answers", Transport.UDP,
        Reported.simple (Except.error "query failed")⟩,
       ⟨"Support TCP answers", Transport.TCP,
        Reported.simple (Except.error "query failed")⟩,
       ⟨"Support EDNS0", Transport.UDP,
        Reported.edns0sync (Except.error "No EDNS option")⟩]
      0).exitCode = 0 :=
  c8_exit_code_always_zero ["dns-roadblock-tests", "arg"]
    ⟨Except.error errTimeout, Except.error errTimeout,
     Edns0Transport.replied replyNoEdns,
     Except.error errTimeout, Except.error errTimeout⟩ _ rfl

/-- Claim C9: in the no-argument mode the line labeled "Basic TCP" carries
the result of the EDNS0 probe run over the UDP client handle, and every line
of that mode comes from a probe executed over UDP — no probe runs over TCP. -/
theorem c9_no_arg_basic_tcp_is_udp_edns0 (b e : Except ClientError Message) :
    (main_no_arg b e).lines =
      [⟨"Basic UDP", Transport.UDP,
        Reported.simpleFuture (support_simple_answers_future b)⟩,
       ⟨"Basic TCP", Transport.UDP,
        Reported.edns0future (support_edns0_future e)⟩] ∧
    (main_no_arg b e).lines.map ReportLine.transport =
      [Transport.UDP, Transport.UDP] :=
  ⟨rfl, rfl⟩

/-- Claim C10: the resolver address is the constant "127.0.0.1:53" in every
completed run of either mode; the first positional argument selects the mode
by its mere presence, and neither its value, the program name, nor any
further arguments influence the run. -/
theorem c10_fixed_address_arg_value_ignored :
    resolver_address = "127.0.0.1:53" ∧
    (∀ args ex out, main args ex = some out →
      out.address = "127.0.0.1:53") ∧
    (∀ p ex, main [p] ex = some (main_no_arg ex.udpBasic ex.udpEdns)) ∧
    (∀ p a rest ex, main (p :: a :: rest) ex =
      main_with_arg ex.udpQuery ex.tcpQuery ex.ednsTransport) ∧
    (∀ p q a b rest₁ rest₂ ex,
      main (p :: a :: rest₁) ex = main (q :: b :: rest₂) ex) := by
  refine ⟨rfl, ?_, fun p ex => rfl, fun p a rest ex => rfl,
    fun p q a b rest₁ rest₂ ex => rfl⟩
  intro args ex out h
  rcases main_completed_cases args ex out h with h2 | ⟨v, _, h2⟩ <;>
    (subst h2; rfl)

/-- C10 at concrete argument lists: the same exchanges give the same run
whatever the argument values are, and a completed run targets 127.0.0.1:53. -/
theorem c10_fixed_address_arg_value_ignored_witness :
    main ["prog", "x"]
        ⟨Except.ok replyEdnsV0, Except.ok replyEdnsV0,
         Edns0Transport.replied replyEdnsV0,
         Except.ok replyEdnsV0, Except.ok replyEdnsV0⟩ =
      main ["other", "y", "z"]
        ⟨Except.ok replyEdnsV0, Except.ok replyEdnsV0,
         Edns0Transport.replied replyEdnsV0,
         Except.ok replyEdnsV0, Except.ok replyEdnsV0⟩ ∧
    (main_no_arg (Except.ok replyEdnsV0) (Except.ok replyEdnsV0)).address =
      "127.0.0.1:53" :=
  ⟨c10_fixed_address_arg_value_ignored.2.2.2.2 "prog" "other" "x" "y" ["z"] [] _,
   c10_fixed_address_arg_value_ignored.2.1 ["prog"]
     ⟨Except.ok replyEdnsV0, Except.ok replyEdnsV0,
      Edns0Transport.replied replyEdnsV0,
      Except.ok replyEdnsV0, Except.ok replyEdnsV0⟩
     (main_no_arg (Except.ok replyEdnsV0) (Except.ok replyEdnsV0)) rfl⟩

end DnsRoadblock
